import Mathlib

/-!
# Verification of the cat-tracker application core (src/app.py)

Shallow embedding of the data model and the route-handler logic of the
cat-tracker Flask application, together with proofs of the specified
properties.

The database rows (SQLite `TEXT`/`INTEGER` columns) are embedded as Lean
structures; nullable columns are `Option String`.  Python truthiness of
optional strings (`None` and `""` are falsy) is made explicit via `truthy`.
`list.sort(key=..., reverse=True)` is a stable descending sort, embedded as
`List.insertionSort` with the non-strict relation "key of the left element
is at least the key of the right element" (which computes exactly the
stable descending order).
-/

namespace CatTracker

/-- Python truthiness of an optional string: `None` and `""` are falsy. -/
def truthy : Option String → Bool
  | none => false
  | some s => !(s == "")

/-- Python `a or b` on optional strings: `a` if truthy, else `b`. -/
def pyOr (a b : Option String) : Option String :=
  if truthy a then a else b

/-! ## Date/time normalisation (`normalize_datetime` in app.py)

`normalize_datetime` feeds `dt_string.split('.')[0].split('+')[0]` to
`datetime.strptime` with a fixed list of five formats, returning the first
match rendered as `%Y-%m-%dT%H:%M:%SZ`.  We embed `strptime` for those five
formats: `%Y` is exactly four digits, the other numeric directives are one
or two digits (greedily; the following literal is never a digit, so greedy
matching coincides with the regex backtracking of `_strptime`), `%f` is one
to six digits, the whole string must be consumed, and the field values must
form a valid calendar date/time (otherwise `datetime` raises `ValueError`,
which the loop swallows). -/

/-- A parsed date/time (what `datetime.strptime` produces, without μs). -/
structure DT where
  year : Nat
  month : Nat
  day : Nat
  hour : Nat
  minute : Nat
  second : Nat
deriving Repr, DecidableEq

/-- Numeric value of a decimal digit character. -/
def digitVal (c : Char) : Nat := c.toNat - 48

/-- Take up to `n` leading decimal digits. -/
def takeDigits : Nat → List Char → List Char × List Char
  | 0, cs => ([], cs)
  | _ + 1, [] => ([], [])
  | n + 1, c :: cs =>
    if c.isDigit then
      let (ds, rest) := takeDigits n cs
      (c :: ds, rest)
    else ([], c :: cs)

/-- Decimal value of a digit list. -/
def digitsToNat (ds : List Char) : Nat :=
  ds.foldl (fun acc c => acc * 10 + digitVal c) 0

/-- Directive `%Y`: exactly four digits. -/
def parseY (cs : List Char) : Option (Nat × List Char) :=
  let (ds, rest) := takeDigits 4 cs
  if ds.length == 4 then some (digitsToNat ds, rest) else none

/-- Directives `%m`, `%d`, `%H`, `%M`, `%S`: one or two digits. -/
def parse12 (cs : List Char) : Option (Nat × List Char) :=
  let (ds, rest) := takeDigits 2 cs
  if ds.length == 0 then none else some (digitsToNat ds, rest)

/-- Directive `%f`: one to six digits. -/
def parseF (cs : List Char) : Option (Nat × List Char) :=
  let (ds, rest) := takeDigits 6 cs
  if ds.length == 0 then none else some (digitsToNat ds, rest)

/-- Match one literal character. -/
def lit (c : Char) : List Char → Option (List Char)
  | c0 :: cs => if c0 == c then some cs else none
  | [] => none

/-- Gregorian leap year (as Python's `calendar.isleap`). -/
def isLeap (y : Nat) : Bool :=
  y % 4 == 0 && (y % 100 != 0 || y % 400 == 0)

/-- Number of days in a month. -/
def daysInMonth (y m : Nat) : Nat :=
  if m == 2 then (if isLeap y then 29 else 28)
  else if m == 4 || m == 6 || m == 9 || m == 11 then 30
  else 31

/-- Range checks performed by the `datetime` constructor. -/
def validDT (d : DT) : Bool :=
  decide (1 ≤ d.year) && decide (d.year ≤ 9999) &&
  decide (1 ≤ d.month) && decide (d.month ≤ 12) &&
  decide (1 ≤ d.day) && decide (d.day ≤ daysInMonth d.year d.month) &&
  decide (d.hour ≤ 23) && decide (d.minute ≤ 59) && decide (d.second ≤ 59)

/-- Require end of input and a valid date/time. -/
def finishDT (y m d hh mi ss : Nat) (cs : List Char) : Option DT :=
  let dt : DT := ⟨y, m, d, hh, mi, ss⟩
  if cs.isEmpty && validDT dt then some dt else none

/-- The five formats tried by `normalize_datetime`, in source order. -/
inductive PyFmt where
  | ymdTHMS
  | ymdHMS
  | ymdHMSf
  | ymdHM
  | ymd
deriving Repr, DecidableEq

/-- Parse `%Y-%m-%d`, returning the remaining input. -/
def parseYMD (cs : List Char) : Option (Nat × Nat × Nat × List Char) := do
  let (y, cs) ← parseY cs
  let cs ← lit '-' cs
  let (m, cs) ← parse12 cs
  let cs ← lit '-' cs
  let (d, cs) ← parse12 cs
  return (y, m, d, cs)

/-- Parse `%H:%M`, returning the remaining input. -/
def parseHM (cs : List Char) : Option (Nat × Nat × List Char) := do
  let (h, cs) ← parse12 cs
  let cs ← lit ':' cs
  let (m, cs) ← parse12 cs
  return (h, m, cs)

/-- Embeds `datetime.strptime` for the five formats of `normalize_datetime`. -/
def strptime (f : PyFmt) (cs : List Char) : Option DT :=
  match f with
  | .ymdTHMS => do
    let (y, m, d, cs) ← parseYMD cs
    let cs ← lit 'T' cs
    let (hh, mi, cs) ← parseHM cs
    let cs ← lit ':' cs
    let (ss, cs) ← parse12 cs
    finishDT y m d hh mi ss cs
  | .ymdHMS => do
    let (y, m, d, cs) ← parseYMD cs
    let cs ← lit ' ' cs
    let (hh, mi, cs) ← parseHM cs
    let cs ← lit ':' cs
    let (ss, cs) ← parse12 cs
    finishDT y m d hh mi ss cs
  | .ymdHMSf => do
    let (y, m, d, cs) ← parseYMD cs
    let cs ← lit ' ' cs
    let (hh, mi, cs) ← parseHM cs
    let cs ← lit ':' cs
    let (ss, cs) ← parse12 cs
    let cs ← lit '.' cs
    let (_fr, cs) ← parseF cs
    finishDT y m d hh mi ss cs
  | .ymdHM => do
    let (y, m, d, cs) ← parseYMD cs
    let cs ← lit ' ' cs
    let (hh, mi, cs) ← parseHM cs
    finishDT y m d hh mi 0 cs
  | .ymd => do
    let (y, m, d, cs) ← parseYMD cs
    finishDT y m d 0 0 0 cs

/-- The format list of `normalize_datetime`, in its priority order. -/
def formats : List PyFmt := [.ymdTHMS, .ymdHMS, .ymdHMSf, .ymdHM, .ymd]

/-- The `for fmt in formats` loop: first successful parse wins. -/
def tryFormats : List PyFmt → List Char → Option DT
  | [], _ => none
  | f :: fs, cs =>
    match strptime f cs with
    | some dt => some dt
    | none => tryFormats fs cs

/-- Two-digit zero-padded rendering (`strftime` numeric directives). -/
def pad2 (n : Nat) : String :=
  if n < 10 then "0" ++ toString n else toString n

/-- Four-digit zero-padded year rendering. -/
def pad4 (n : Nat) : String :=
  if n < 10 then "000" ++ toString n
  else if n < 100 then "00" ++ toString n
  else if n < 1000 then "0" ++ toString n
  else toString n

/-- Embeds `dt.strftime` with format `%Y-%m-%dT%H:%M:%SZ`. -/
def fmtISO (d : DT) : String :=
  pad4 d.year ++ "-" ++ pad2 d.month ++ "-" ++ pad2 d.day ++ "T" ++
  pad2 d.hour ++ ":" ++ pad2 d.minute ++ ":" ++ pad2 d.second ++ "Z"

/-- Everything before the first occurrence of `c` (Python `s.split(c)[0]`). -/
def beforeChar (c : Char) (cs : List Char) : List Char :=
  cs.takeWhile (fun c0 => !(c0 == c))

/-- Computes `dt_string.split` on dot then plus, first component, as chars. -/
def coreChars (s : String) : List Char :=
  beforeChar '+' (beforeChar '.' s.toList)

/-- Python `s.endswith('Z')`. -/
def endswithZ (s : String) : Bool := s.toList.getLast? == some 'Z'

/-- Embeds `normalize_datetime` from app.py, on string (or NULL) input. -/
def normalize_datetime : Option String → Option String
  | none => none
  | some s =>
    if s == "" then none
    else if endswithZ s then some s
    else
      match tryFormats formats (coreChars s) with
      | some dt => some (fmtISO dt)
      | none => some s

/-! ## Data model (the three tables created by `init_db`) -/

/-- A row of the `cats` table. -/
structure Cat where
  id : Nat
  name : String
  description : Option String
  image_data : Option String
  image_type : Option String
  created_at : Option String
deriving Repr, DecidableEq

/-- A row of the `sightings` table (`date` is NOT NULL). -/
structure Sighting where
  id : Nat
  cat_id : Nat
  date : String
  location : Option String
  notes : Option String
  image_data : Option String
  image_type : Option String
deriving Repr, DecidableEq

/-- A row of the `cat_photos` table (`image_data`, `image_type` NOT NULL). -/
structure CatPhoto where
  id : Nat
  cat_id : Nat
  image_data : String
  image_type : String
  caption : Option String
  photo_date : Option String
  created_at : Option String
deriving Repr, DecidableEq

/-- The database state: the three tables, rows in insertion order. -/
structure DB where
  cats : List Cat
  sightings : List Sighting
  cat_photos : List CatPhoto
deriving Repr, DecidableEq

/-! ## Upload helpers (`allowed_file`, `file_to_base64`) -/

/-- The extension allow-list `ALLOWED_EXTENSIONS`. -/
def ALLOWED_EXTENSIONS : List String := ["png", "jpg", "jpeg", "gif", "webp"]

/-- Computes the part of the filename after the last dot (Python rsplit). -/
def extAfterLastDot (filename : String) : String :=
  String.mk ((filename.toList.reverse.takeWhile (fun c => !(c == '.'))).reverse)

/-- Python `str.lower()` on ASCII-ish strings. -/
def lowerStr (s : String) : String := String.mk (s.toList.map Char.toLower)

/-- Python `str.strip()`: drop leading and trailing whitespace. -/
def pyStrip (s : String) : String :=
  String.mk (((s.toList.dropWhile Char.isWhitespace).reverse.dropWhile
    Char.isWhitespace).reverse)

/-- Embeds `allowed_file` from app.py. -/
def allowed_file (filename : String) : Bool :=
  filename.toList.contains '.' &&
    ALLOWED_EXTENSIONS.contains (lowerStr (extAfterLastDot filename))

/-- An uploaded file: its client filename and raw bytes. -/
structure UploadedFile where
  filename : String
  content : List Nat
deriving Repr, DecidableEq

/-- A character of the standard base64 alphabet. -/
def b64char (n : Nat) : Char :=
  "ABCDEFGHIJKLMNOPQRSTUVWXYZabcdefghijklmnopqrstuvwxyz0123456789+/".toList.getD n 'A'

/-- RFC 4648 base64 of a byte list (standard alphabet, `=` padding),
as computed by `base64.b64encode(...).decode('utf-8')`. -/
def b64encodeChars : List Nat → List Char
  | a :: b :: c :: rest =>
    let n := a % 256 * 65536 + b % 256 * 256 + c % 256
    b64char (n / 262144) :: b64char (n / 4096 % 64) :: b64char (n / 64 % 64) ::
      b64char (n % 64) :: b64encodeChars rest
  | [a, b] =>
    let n := a % 256 * 65536 + b % 256 * 256
    [b64char (n / 262144), b64char (n / 4096 % 64), b64char (n / 64 % 64), '=']
  | [a] =>
    let n := a % 256 * 65536
    [b64char (n / 262144), b64char (n / 4096 % 64), '=', '=']
  | [] => []

/-- Embeds the b64encode-then-decode step applied to the uploaded bytes. -/
def b64encode (data : List Nat) : String := String.mk (b64encodeChars data)

/-- The `mime_types` dict of `file_to_base64`, as an association list. -/
def mime_types : List (String × String) :=
  [("jpg", "image/jpeg"), ("jpeg", "image/jpeg"), ("png", "image/png"),
   ("gif", "image/gif"), ("webp", "image/webp")]

/-- Embeds the dict lookup with default, on `mime_types`. -/
def lookupMime (ext : String) : String :=
  ((mime_types.find? (fun kv => kv.fst == ext)).map Prod.snd).getD "image/jpeg"

/-- Embeds `file_to_base64` from app.py.  A Flask `FileStorage` is truthy exactly
when its filename is non-empty, so `if file and file.filename and
allowed_file(file.filename)` reduces to the filename being non-empty and
allow-listed.  `none` models an absent file field. -/
def file_to_base64 : Option UploadedFile → Option String × Option String
  | none => (none, none)
  | some f =>
    if !(f.filename == "") && allowed_file f.filename then
      (some (b64encode f.content), some (lookupMime (lowerStr (extAfterLastDot f.filename))))
    else (none, none)

/-- Embeds `get_image_src` from app.py (truthiness check on both fields). -/
def get_image_src (image_data image_type : Option String) : Option String :=
  if truthy image_data && truthy image_type then
    some ("data:" ++ image_type.getD "" ++ ";base64," ++ image_data.getD "")
  else none

/-! ## Photo aggregation (`get_all_cat_photos`) -/

/-- One entry of the aggregated photo list built by `get_all_cat_photos`
(the union of the two SELECTs plus the `image_src`/`iso_date` fields added
in the loops). -/
structure PhotoEntry where
  id : Nat
  source : String
  image_data : Option String
  image_type : Option String
  caption : Option String
  photo_date : Option String
  created_at : Option String
  location : Option String
  notes : Option String
  image_src : Option String
  iso_date : Option String
deriving Repr, DecidableEq

/-- The aggregated entry built from a `cat_photos` row: the first SELECT of
`get_all_cat_photos` plus the first loop body. -/
def galleryEntry (p : CatPhoto) : PhotoEntry :=
  { id := p.id
    source := "gallery"
    image_data := some p.image_data
    image_type := some p.image_type
    caption := p.caption
    photo_date := p.photo_date
    created_at := p.created_at
    location := none
    notes := none
    image_src := get_image_src (some p.image_data) (some p.image_type)
    iso_date := pyOr (normalize_datetime p.photo_date) (normalize_datetime p.created_at) }

/-- The aggregated entry built from a `sightings` row: the second SELECT of
`get_all_cat_photos` (which aliases `notes` to `caption` and `date` to both
`photo_date` and `created_at`) plus the second loop body. -/
def sightingEntry (s : Sighting) : PhotoEntry :=
  { id := s.id
    source := "sighting"
    image_data := s.image_data
    image_type := s.image_type
    caption := s.notes
    photo_date := some s.date
    created_at := some s.date
    location := s.location
    notes := s.notes
    image_src := get_image_src s.image_data s.image_type
    iso_date := normalize_datetime (some s.date) }

/-- The sort key `x['iso_date'] or ''` of `all_photos.sort`. -/
def sortKey (p : PhotoEntry) : String :=
  match p.iso_date with
  | none => ""
  | some s => if s == "" then "" else s

/-- The order used by `all_photos.sort(key=..., reverse=True)`: descending
by key.  A Python sort is stable, so the sorted result is computed by the
stable `List.insertionSort` over this non-strict relation. -/
def photoOrder (a b : PhotoEntry) : Prop := sortKey b ≤ sortKey a

instance : DecidableRel photoOrder := fun a b =>
  inferInstanceAs (Decidable (sortKey b ≤ sortKey a))

/-- Embeds `get_all_cat_photos` from app.py. -/
def get_all_cat_photos (db : DB) (cat_id : Nat) : List PhotoEntry :=
  let gallery_photos := db.cat_photos.filter (fun p => p.cat_id == cat_id)
  let sighting_photos :=
    db.sightings.filter (fun s => s.cat_id == cat_id && s.image_data.isSome)
  let all_photos := gallery_photos.map galleryEntry ++ sighting_photos.map sightingEntry
  all_photos.insertionSort photoOrder

/-! ## Route handlers (state transformations on `DB`) -/

/-- Next auto-increment id for the `cats` table. -/
def nextCatId (db : DB) : Nat := (db.cats.map Cat.id).foldr max 0 + 1

/-- Next auto-increment id for the `sightings` table. -/
def nextSightingId (db : DB) : Nat := (db.sightings.map Sighting.id).foldr max 0 + 1

/-- Embeds an insert into `cats` under the UNIQUE(name) constraint: the insert
raises (and is rolled back) when the name is already present. -/
def insert_cat (db : DB) (c : Cat) : Except Unit DB :=
  if db.cats.any (fun c0 => c0.name == c.name) then Except.error ()
  else Except.ok { db with cats := db.cats ++ [c] }

/-- Embeds `quick_add_cat` from app.py: trim the submitted name, skip the insert
when it is empty, and swallow any insert error (`except: pass`).  `now` is
the value of `get_utc_now()`. -/
def quick_add_cat (db : DB) (nameInput : Option String) (now : String) : DB :=
  let name := pyStrip (nameInput.getD "")
  if name == "" then db
  else
    match insert_cat db
      { id := nextCatId db, name := name, description := none,
        image_data := none, image_type := none, created_at := some now } with
    | Except.ok db2 => db2
    | Except.error _ => db

/-- Embeds `add_cat` from app.py: like `quick_add_cat` but with a description and
an optional uploaded image run through `file_to_base64`. -/
def add_cat (db : DB) (nameInput descInput : Option String)
    (file : Option UploadedFile) (now : String) : DB :=
  let name := pyStrip (nameInput.getD "")
  let description := pyStrip (descInput.getD "")
  if name == "" then db
  else
    let img := file_to_base64 file
    match insert_cat db
      { id := nextCatId db, name := name, description := some description,
        image_data := img.fst, image_type := img.snd, created_at := some now } with
    | Except.ok db2 => db2
    | Except.error _ => db

/-- Embeds `log_sighting` from app.py: no insert when `cat_id` is missing/falsy;
otherwise a sighting row is inserted with the (possibly dropped) image. -/
def log_sighting (db : DB) (cat_id : Option Nat) (location notes : String)
    (file : Option UploadedFile) (now : String) : DB :=
  let img := file_to_base64 file
  match cat_id with
  | none => db
  | some cid =>
    { db with
      sightings := db.sightings ++
        [{ id := nextSightingId db, cat_id := cid, date := now,
           location := some location, notes := some notes,
           image_data := img.fst, image_type := img.snd }] }

/-- Embeds `delete_cat` from app.py: delete the dependent `cat_photos` and
`sightings` rows, then the cat row. -/
def delete_cat (db : DB) (cat_id : Nat) : DB :=
  { cats := db.cats.filter (fun c => !(c.id == cat_id))
    sightings := db.sightings.filter (fun s => !(s.cat_id == cat_id))
    cat_photos := db.cat_photos.filter (fun p => !(p.cat_id == cat_id)) }

/-- Embeds `delete_cat_photo` from app.py: row-delete for `source == 'gallery'`,
null the image fields for `source == 'sighting'`, no-op otherwise; both
match on the photo id AND the cat id. -/
def delete_cat_photo (db : DB) (cat_id : Nat) (source : String) (photo_id : Nat) : DB :=
  if source == "gallery" then
    { db with
      cat_photos := db.cat_photos.filter (fun p => !(p.id == photo_id && p.cat_id == cat_id)) }
  else if source == "sighting" then
    { db with
      sightings := db.sightings.map (fun s =>
        if s.id == photo_id && s.cat_id == cat_id then
          { s with image_data := none, image_type := none }
        else s) }
  else db

/-- Embeds `set_profile_photo` from app.py: fetch the photo row by id AND cat id
from the table selected by `source` (redirecting at once for any other
source), and copy its image payload onto the cat row when that payload is
truthy (`if photo and photo.get('image_data')`). -/
def set_profile_photo (db : DB) (cat_id : Nat) (source : String) (photo_id : Nat) : DB :=
  let photo : Option (Option String × Option String) :=
    if source == "gallery" then
      (db.cat_photos.find? (fun p => p.id == photo_id && p.cat_id == cat_id)).map
        (fun p => (some p.image_data, some p.image_type))
    else if source == "sighting" then
      (db.sightings.find? (fun s => s.id == photo_id && s.cat_id == cat_id)).map
        (fun s => (s.image_data, s.image_type))
    else none
  match photo with
  | none => db
  | some img =>
    if truthy img.fst then
      { db with
        cats := db.cats.map (fun c =>
          if c.id == cat_id then { c with image_data := img.fst, image_type := img.snd }
          else c) }
    else db

/-- The order of `ORDER BY cats.name` (ascending, stable). -/
def catNameOrder (a b : Cat) : Prop := a.name ≤ b.name

instance : DecidableRel catNameOrder := fun a b =>
  inferInstanceAs (Decidable (a.name ≤ b.name))

/-- One entry of the listing built by the `/cats` route. -/
structure CatListEntry where
  cat : Cat
  sighting_count : Nat
  image_src : Option String
  photo_count : Nat
deriving Repr, DecidableEq

/-- Embeds `cats_list` from app.py: every cat (ordered by name) with its sighting
count, its image source, and its photo count (gallery-photo rows plus
sighting rows with a non-NULL image). -/
def cats_list (db : DB) : List CatListEntry :=
  (db.cats.insertionSort catNameOrder).map (fun c =>
    { cat := c
      sighting_count := (db.sightings.filter (fun s => s.cat_id == c.id)).length
      image_src := get_image_src c.image_data c.image_type
      photo_count :=
        (db.cat_photos.filter (fun p => p.cat_id == c.id)).length +
        (db.sightings.filter (fun s => s.cat_id == c.id && s.image_data.isSome)).length })

/-! ## Concrete evaluations of the embedding (sanity checks) -/

example : normalize_datetime (some "2024-05-06 07:08:09") = some "2024-05-06T07:08:09Z" := by decide

example : normalize_datetime (some "2024-05-06T07:08:09") = some "2024-05-06T07:08:09Z" := by decide

example : normalize_datetime (some "2024-05-06 07:08:09.123456") = some "2024-05-06T07:08:09Z" := by decide

example : normalize_datetime (some "2024-05-06 07:08") = some "2024-05-06T07:08:00Z" := by decide

example : normalize_datetime (some "2024-05-06") = some "2024-05-06T00:00:00Z" := by decide

example : normalize_datetime (some "2024-05-06T07:08:09Z") = some "2024-05-06T07:08:09Z" := by decide

example : normalize_datetime (some "garbage") = some "garbage" := by decide

example : normalize_datetime (some "2024-13-06") = some "2024-13-06" := by decide

example : normalize_datetime (some "2024-02-30") = some "2024-02-30" := by decide

example : normalize_datetime (some "2024-02-29") = some "2024-02-29T00:00:00Z" := by decide

example : normalize_datetime (some "2023-02-29") = some "2023-02-29" := by decide

example : normalize_datetime (some "") = none := by decide

example : normalize_datetime none = none := by decide

example : normalize_datetime (some "2024-05-06T07:08:09+05:00") = some "2024-05-06T07:08:09Z" := by decide

example : pyStrip "  Tom  " = "Tom" := by decide

example : pyStrip "   " = "" := by decide

example : b64encode [77, 97, 110] = "TWFu" := by decide

example : b64encode [77, 97] = "TWE=" := by decide

example : b64encode [77] = "TQ==" := by decide

/-! ## Helper lemmas -/

theorem filter_not_filter {α : Type} (p : α → Bool) (l : List α) :
    (l.filter (fun a => !(p a))).filter p = [] := by
  induction l with
  | nil => rfl
  | cons a l ih =>
    cases h : p a with
    | true => simp [List.filter_cons, h, ih]
    | false => simp [List.filter_cons, h, ih]

theorem map_eq_self_of_mem {α : Type} {f : α → α} {l : List α} (h : ∀ a ∈ l, f a = a) :
    l.map f = l := by
  induction l with
  | nil => rfl
  | cons a l ih =>
    simp only [List.map_cons]
    rw [h a (List.mem_cons_self a l), ih (fun b hb => h b (List.mem_cons_of_mem a hb))]

theorem str_le_empty (s : String) (h : s ≤ "") : s = "" :=
  le_antisymm h (String.le_iff_toList_le.mpr List.nil_le)

theorem fmtISO_ne_empty (d : DT) : fmtISO d ≠ "" := by
  intro h
  have h2 : (fmtISO d).length = 0 := by rw [h]; rfl
  have hz : ("Z" : String).length = 1 := rfl
  rw [fmtISO, String.length_append, hz] at h2
  omega

theorem normalize_ne_some_empty (x : Option String) : normalize_datetime x ≠ some "" := by
  cases x with
  | none => simp [normalize_datetime]
  | some s =>
    by_cases h1 : s == ""
    · simp [normalize_datetime, h1]
    · have hne : s ≠ "" := by simpa using h1
      by_cases h2 : endswithZ s
      · simp [normalize_datetime, h1, h2, hne]
      · cases h3 : tryFormats formats (coreChars s) with
        | some dt =>
          simp only [normalize_datetime, h1, h2, h3, Bool.false_eq_true, if_false]
          simp [fmtISO_ne_empty dt]
        | none =>
          simp only [normalize_datetime, h1, h2, h3, Bool.false_eq_true, if_false]
          simp [hne]

theorem pyOr_ne_some_empty {a b : Option String} (ha : a ≠ some "") (hb : b ≠ some "") :
    pyOr a b ≠ some "" := by
  unfold pyOr
  split
  · exact ha
  · exact hb

theorem mem_get_all_cat_photos {db : DB} {cid : Nat} {p : PhotoEntry}
    (hp : p ∈ get_all_cat_photos db cid) :
    (∃ q ∈ db.cat_photos.filter (fun q => q.cat_id == cid), p = galleryEntry q) ∨
    (∃ s ∈ db.sightings.filter (fun s => s.cat_id == cid && s.image_data.isSome),
      p = sightingEntry s) := by
  rw [get_all_cat_photos, List.mem_insertionSort] at hp
  rcases List.mem_append.mp hp with h | h
  · left
    rcases List.mem_map.mp h with ⟨q, hq, rfl⟩
    exact ⟨q, hq, rfl⟩
  · right
    rcases List.mem_map.mp h with ⟨s, hs, rfl⟩
    exact ⟨s, hs, rfl⟩

theorem entry_iso_ne {db : DB} {cid : Nat} {p : PhotoEntry}
    (hp : p ∈ get_all_cat_photos db cid) : p.iso_date ≠ some "" := by
  rcases mem_get_all_cat_photos hp with ⟨q, _, rfl⟩ | ⟨s, _, rfl⟩
  · exact pyOr_ne_some_empty (normalize_ne_some_empty _) (normalize_ne_some_empty _)
  · show normalize_datetime (some s.date) ≠ some ""
    exact normalize_ne_some_empty _

theorem sortKey_eq_empty {p : PhotoEntry} (h : p.iso_date ≠ some "") :
    sortKey p = "" ↔ p.iso_date = none := by
  cases hi : p.iso_date with
  | none => simp [sortKey, hi]
  | some s =>
    rw [hi] at h
    have hs : s ≠ "" := fun hs => h (by rw [hs])
    simp [sortKey, hi, hs]

theorem tryFormats_first (fs : List PyFmt) (cs : List Char) :
    ∀ (i : Nat) (h : i < fs.length) (dt : DT),
      strptime (fs.get ⟨i, h⟩) cs = some dt →
      (∀ (j : Nat) (hj : j < i), strptime (fs.get ⟨j, Nat.lt_trans hj h⟩) cs = none) →
      tryFormats fs cs = some dt := by
  induction fs with
  | nil => intro i h; exact absurd h (by simp)
  | cons f fs ih =>
    intro i h dt hsome hnone
    cases i with
    | zero =>
      have hsome2 : strptime f cs = some dt := hsome
      simp [tryFormats, hsome2]
    | succ i =>
      have h0 : strptime f cs = none := by simpa using hnone 0 (Nat.succ_pos i)
      have hsome2 : strptime (fs.get ⟨i, Nat.lt_of_succ_lt_succ h⟩) cs = some dt := hsome
      simp only [tryFormats, h0]
      exact ih i (Nat.lt_of_succ_lt_succ h) dt hsome2
        (fun j hj => by simpa using hnone (j + 1) (Nat.succ_lt_succ hj))

/-! ## Claims -/

/-- C4: after `delete_cat` completes for a cat id, zero rows remain in the
`sightings` table and zero rows remain in the `cat_photos` table referencing
that cat id — no orphaned dependent rows survive the deletion. -/
theorem delete_cat_no_orphans (db : DB) (cid : Nat) :
    ((delete_cat db cid).sightings.filter (fun s => s.cat_id == cid)).length = 0 ∧
    ((delete_cat db cid).cat_photos.filter (fun p => p.cat_id == cid)).length = 0 := by
  constructor
  · rw [delete_cat]
    rw [show ((db.sightings.filter (fun s => !(s.cat_id == cid))).filter
        (fun s => s.cat_id == cid)) = [] from
      filter_not_filter (fun s => s.cat_id == cid) db.sightings]
    rfl
  · rw [delete_cat]
    rw [show ((db.cat_photos.filter (fun p => !(p.cat_id == cid))).filter
        (fun p => p.cat_id == cid)) = [] from
      filter_not_filter (fun p => p.cat_id == cid) db.cat_photos]
    rfl

/-- C2: `normalize_datetime` is total (it is a Lean function); empty/absent
input yields `none`; an input already ending in `'Z'` is returned as-is; an
input whose core (the part before the first `'.'` and `'+'`) matches a known
format is rendered canonically as `YYYY-MM-DDTHH:MM:SSZ`; an input matching
no known format is returned unchanged; and the formats are tried in the
fixed priority order of the `formats` list, returning on the first match. -/
theorem normalize_datetime_spec :
    normalize_datetime none = none ∧
    normalize_datetime (some "") = none ∧
    (∀ s : String, s ≠ "" → endswithZ s = true → normalize_datetime (some s) = some s) ∧
    (∀ s : String, s ≠ "" → endswithZ s = false →
      (∀ dt, tryFormats formats (coreChars s) = some dt →
        normalize_datetime (some s) = some (fmtISO dt)) ∧
      (tryFormats formats (coreChars s) = none → normalize_datetime (some s) = some s)) ∧
    (∀ (cs : List Char) (i : Nat) (h : i < formats.length) (dt : DT),
      strptime (formats.get ⟨i, h⟩) cs = some dt →
      (∀ (j : Nat) (hj : j < i), strptime (formats.get ⟨j, Nat.lt_trans hj h⟩) cs = none) →
      tryFormats formats cs = some dt) := by
  refine ⟨rfl, rfl, ?_, ?_, ?_⟩
  · intro s hne hz
    simp [normalize_datetime, hne, hz]
  · intro s hne hz
    constructor
    · intro dt htry
      simp [normalize_datetime, hne, hz, htry]
    · intro htry
      simp [normalize_datetime, hne, hz, htry]
  · exact tryFormats_first formats

/-- C2 witness: a concrete date+time string is canonicalised. -/
theorem normalize_datetime_spec_witness :
    normalize_datetime (some "2024-05-06 07:08:09") = some "2024-05-06T07:08:09Z" := by
  have h := (normalize_datetime_spec.2.2.2.1 "2024-05-06 07:08:09"
    (by decide) (by decide)).1 ⟨2024, 5, 6, 7, 8, 9⟩ (by decide)
  exact h.trans (by decide)

instance : IsTotal PhotoEntry photoOrder :=
  ⟨fun a b => le_total (sortKey b) (sortKey a)⟩

instance : IsTrans PhotoEntry photoOrder :=
  ⟨fun _ _ _ hab hbc => le_trans hbc hab⟩

/-- C1: the list returned by `get_all_cat_photos` is sorted non-increasing
by the resolved date (the `iso_date` field compared as strings, `None`
treated as `""`); entries whose date is unresolved (`iso_date = none`) sort
last (they form a suffix); and a cat with zero gallery photos and zero
sighting photos yields the empty list rather than an error. -/
theorem get_all_cat_photos_sorted (db : DB) (cid : Nat) :
    (get_all_cat_photos db cid).Pairwise (fun a b => sortKey b ≤ sortKey a) ∧
    (get_all_cat_photos db cid).Pairwise (fun a b => a.iso_date = none → b.iso_date = none) ∧
    (db.cat_photos.filter (fun p => p.cat_id == cid) = [] →
      db.sightings.filter (fun s => s.cat_id == cid && s.image_data.isSome) = [] →
      get_all_cat_photos db cid = []) := by
  have hsorted : (get_all_cat_photos db cid).Pairwise photoOrder :=
    List.sorted_insertionSort photoOrder _
  refine ⟨hsorted, ?_, ?_⟩
  · refine hsorted.imp_of_mem ?_
    intro a b ha hb hr hna
    have ka : sortKey a = "" := by simp [sortKey, hna]
    have hr2 : sortKey b ≤ "" := ka ▸ hr
    exact (sortKey_eq_empty (entry_iso_ne hb)).mp (str_le_empty _ hr2)
  · intro h1 h2
    simp [get_all_cat_photos, h1, h2]

/-- C1 witness: a cat with no photos of either kind yields the empty list. -/
theorem get_all_cat_photos_sorted_witness :
    get_all_cat_photos ⟨[⟨1, "Tom", none, none, none, none⟩], [], []⟩ 1 = [] :=
  (get_all_cat_photos_sorted ⟨[⟨1, "Tom", none, none, none, none⟩], [], []⟩ 1).2.2 rfl rfl

/-- C3: in the aggregated photo list, every gallery-sourced entry's
resolved date is the normalised `photo_date` when that is truthy, otherwise
the normalised `created_at`; every sighting-sourced entry's resolved date is
the normalised timestamp of the sighting row itself. -/
theorem photo_entry_date_precedence (db : DB) (cid : Nat) :
    ∀ p ∈ get_all_cat_photos db cid,
      (p.source = "gallery" →
        p.iso_date = pyOr (normalize_datetime p.photo_date) (normalize_datetime p.created_at)) ∧
      (p.source = "sighting" →
        ∃ s, s ∈ db.sightings ∧ s.cat_id = cid ∧ s.id = p.id ∧
          p.photo_date = some s.date ∧ p.iso_date = normalize_datetime (some s.date)) := by
  intro p hp
  rcases mem_get_all_cat_photos hp with ⟨q, _, rfl⟩ | ⟨s, hs, rfl⟩
  · constructor
    · intro _
      simp [galleryEntry]
    · intro hcontra
      exact absurd hcontra (by simp [galleryEntry])
  · rcases List.mem_filter.mp hs with ⟨hmem, hcond⟩
    constructor
    · intro hcontra
      exact absurd hcontra (by simp [sightingEntry])
    · intro _
      refine ⟨s, hmem, ?_, rfl, rfl, rfl⟩
      have := (Bool.and_eq_true _ _).mp hcond
      simpa using this.1

/-- C3 witness: for a concrete gallery photo with a NULL `photo_date`, the
aggregated entry falls back to the normalised `created_at`. -/
theorem photo_entry_date_precedence_witness :
    (galleryEntry ⟨5, 2, "IMG", "image/png", none, none, some "2024-01-02 03:04:05"⟩).iso_date
      = some "2024-01-02T03:04:05Z" := by
  have h := (photo_entry_date_precedence
      ⟨[], [], [⟨5, 2, "IMG", "image/png", none, none, some "2024-01-02 03:04:05"⟩]⟩ 2
      (galleryEntry ⟨5, 2, "IMG", "image/png", none, none, some "2024-01-02 03:04:05"⟩)
      (by decide)).1 rfl
  exact h.trans (by decide)

/-- C5: creating a cat whose trimmed name is empty persists nothing (the
state is unchanged, the handler only redirects); creating a cat whose name
already exists leaves the cats table unchanged — in particular its row
count — and no error escapes (both handlers are total functions that
swallow the uniqueness violation).  Holds for `quick_add_cat` and
`add_cat`. -/
theorem add_cat_validation_and_uniqueness (db : DB) (nameInput descInput : Option String)
    (file : Option UploadedFile) (now : String) :
    (pyStrip (nameInput.getD "") = "" →
      quick_add_cat db nameInput now = db ∧ add_cat db nameInput descInput file now = db) ∧
    ((∃ c ∈ db.cats, c.name = pyStrip (nameInput.getD "")) →
      quick_add_cat db nameInput now = db ∧ add_cat db nameInput descInput file now = db ∧
      (quick_add_cat db nameInput now).cats.length = db.cats.length ∧
      (add_cat db nameInput descInput file now).cats.length = db.cats.length) := by
  constructor
  · intro h
    constructor
    · simp [quick_add_cat, h]
    · simp [add_cat, h]
  · intro h
    obtain ⟨c, hc, hname⟩ := h
    have hdup : db.cats.any (fun c0 => c0.name == pyStrip (nameInput.getD "")) = true :=
      List.any_eq_true.mpr ⟨c, hc, by simp [hname]⟩
    by_cases hemp : pyStrip (nameInput.getD "") = ""
    · have h1 : quick_add_cat db nameInput now = db := by simp [quick_add_cat, hemp]
      have h2 : add_cat db nameInput descInput file now = db := by simp [add_cat, hemp]
      exact ⟨h1, h2, by rw [h1], by rw [h2]⟩
    · have h1 : quick_add_cat db nameInput now = db := by
        simp [quick_add_cat, hemp, insert_cat, hdup]
      have h2 : add_cat db nameInput descInput file now = db := by
        simp [add_cat, hemp, insert_cat, hdup]
      exact ⟨h1, h2, by rw [h1], by rw [h2]⟩

/-- C5 witness: quick-adding an already-present name (after trimming)
leaves the database unchanged. -/
theorem add_cat_validation_and_uniqueness_witness :
    quick_add_cat ⟨[⟨1, "Tom", none, none, none, none⟩], [], []⟩ (some " Tom ")
        "2024-01-01T00:00:00Z" = ⟨[⟨1, "Tom", none, none, none, none⟩], [], []⟩ :=
  ((add_cat_validation_and_uniqueness ⟨[⟨1, "Tom", none, none, none, none⟩], [], []⟩
      (some " Tom ") none none "2024-01-01T00:00:00Z").2
    ⟨⟨1, "Tom", none, none, none, none⟩, by decide, by decide⟩).1

/-- C6: an uploaded file whose extension (case-insensitively, after the
last dot) is in the allow-list is stored with exactly the fixed
extension-to-MIME mapping (`jpg`/`jpeg` → `image/jpeg`, `png` →
`image/png`, `gif` → `image/gif`, `webp` → `image/webp`); a file outside
the allow-list is silently dropped — no image data or type is produced —
while `log_sighting` still persists the sighting row (with NULL image
fields) and touches no other table. -/
theorem upload_mime_and_allowlist (f : UploadedFile) (db : DB) (cid : Nat)
    (location notes now : String) :
    (f.filename.toList.contains '.' = true →
      lowerStr (extAfterLastDot f.filename) ∈ ALLOWED_EXTENSIONS →
      ((file_to_base64 (some f)).fst = some (b64encode f.content) ∧
       (file_to_base64 (some f)).snd =
         some (lookupMime (lowerStr (extAfterLastDot f.filename)))) ∧
      ((lowerStr (extAfterLastDot f.filename) = "jpg" ∨
          lowerStr (extAfterLastDot f.filename) = "jpeg" →
          (file_to_base64 (some f)).snd = some "image/jpeg") ∧
       (lowerStr (extAfterLastDot f.filename) = "png" →
          (file_to_base64 (some f)).snd = some "image/png") ∧
       (lowerStr (extAfterLastDot f.filename) = "gif" →
          (file_to_base64 (some f)).snd = some "image/gif") ∧
       (lowerStr (extAfterLastDot f.filename) = "webp" →
          (file_to_base64 (some f)).snd = some "image/webp"))) ∧
    (allowed_file f.filename = false →
      file_to_base64 (some f) = (none, none) ∧
      (log_sighting db (some cid) location notes (some f) now).sightings =
        db.sightings ++ [{ id := nextSightingId db, cat_id := cid, date := now,
                           location := some location, notes := some notes,
                           image_data := none, image_type := none }] ∧
      (log_sighting db (some cid) location notes (some f) now).cats = db.cats ∧
      (log_sighting db (some cid) location notes (some f) now).cat_photos =
        db.cat_photos) := by
  constructor
  · intro hdot hmem
    have hnil : f.filename.toList ≠ [] := by
      intro h
      rw [h] at hdot
      simp at hdot
    have hne : f.filename ≠ "" := by
      intro h
      apply hnil
      rw [h]
      rfl
    have hcont : ALLOWED_EXTENSIONS.contains (lowerStr (extAfterLastDot f.filename)) = true :=
      List.elem_iff.mpr hmem
    have hallow : allowed_file f.filename = true := by
      simp only [allowed_file, Bool.and_eq_true]
      exact ⟨hdot, hcont⟩
    have hfst : (file_to_base64 (some f)).fst = some (b64encode f.content) := by
      simp [file_to_base64, hallow, hne]
    have hsnd : (file_to_base64 (some f)).snd =
        some (lookupMime (lowerStr (extAfterLastDot f.filename))) := by
      simp [file_to_base64, hallow, hne]
    refine ⟨⟨hfst, hsnd⟩, ?_, ?_, ?_, ?_⟩
    · intro hcase
      rcases hcase with h | h <;> rw [hsnd, h] <;> rfl
    · intro h
      rw [hsnd, h]
      rfl
    · intro h
      rw [hsnd, h]
      rfl
    · intro h
      rw [hsnd, h]
      rfl
  · intro hnal
    have himg : file_to_base64 (some f) = (none, none) := by
      simp [file_to_base64, hnal]
    refine ⟨himg, ?_, rfl, rfl⟩
    simp [log_sighting, himg]

/-- C6 witness: an uppercase `.JPG` extension is allow-listed and maps to
`image/jpeg`. -/
theorem upload_mime_and_allowlist_witness :
    (file_to_base64 (some ⟨"cat.JPG", [77, 97, 110]⟩)).snd = some "image/jpeg" := by
  have h := (upload_mime_and_allowlist ⟨"cat.JPG", [77, 97, 110]⟩ ⟨[], [], []⟩ 1
    "" "" "2024-01-01T00:00:00Z").1 (by decide) (by decide)
  exact h.1.2.trans (by decide)

theorem getElem?_map_self {α : Type} {l : List α} {f : α → α} (i : Nat) (a : α)
    (h : l[i]? = some a) : (l.map f)[i]? = some (f a) := by
  rw [List.getElem?_map, h]
  rfl

/-- C7: deleting a photo with source `'gallery'` removes the matching
gallery-photo row entirely (and touches nothing else); deleting a photo
with source `'sighting'` sets only the matching sighting's `image_data` and
`image_type` to NULL while the sighting row itself — its id, cat id, date,
location and notes — persists at its position, and the other tables are
untouched. -/
theorem delete_photo_semantics (db : DB) (cid pid : Nat) :
    ((∀ p, p ∈ (delete_cat_photo db cid "gallery" pid).cat_photos ↔
        p ∈ db.cat_photos ∧ ¬(p.id = pid ∧ p.cat_id = cid)) ∧
     (delete_cat_photo db cid "gallery" pid).sightings = db.sightings ∧
     (delete_cat_photo db cid "gallery" pid).cats = db.cats) ∧
    ((delete_cat_photo db cid "sighting" pid).sightings.length = db.sightings.length ∧
     (∀ (i : Nat) (s : Sighting), db.sightings[i]? = some s →
        (delete_cat_photo db cid "sighting" pid).sightings[i]? =
          some (if s.id = pid ∧ s.cat_id = cid then
            { s with image_data := none, image_type := none } else s)) ∧
     (delete_cat_photo db cid "sighting" pid).cat_photos = db.cat_photos ∧
     (delete_cat_photo db cid "sighting" pid).cats = db.cats) := by
  refine ⟨⟨?_, rfl, rfl⟩, ?_, ?_, rfl, rfl⟩
  · intro p
    have e1 : (delete_cat_photo db cid "gallery" pid).cat_photos =
        db.cat_photos.filter (fun q => !(q.id == pid && q.cat_id == cid)) := rfl
    rw [e1, List.mem_filter]
    refine and_congr_right (fun _ => ⟨?_, ?_⟩)
    · intro hb hc
      obtain ⟨h1, h2⟩ := hc
      rw [h1, h2] at hb
      simp at hb
    · intro hc
      have hb : (p.id == pid && p.cat_id == cid) = false := by
        rw [Bool.eq_false_iff]
        intro ht
        exact hc (by simpa using ht)
      simp [hb]
  · have e2 : (delete_cat_photo db cid "sighting" pid).sightings =
        db.sightings.map (fun s0 =>
          if s0.id == pid && s0.cat_id == cid then
            { s0 with image_data := none, image_type := none }
          else s0) := rfl
    rw [e2, List.length_map]
  · intro i s hs
    have h2 : (delete_cat_photo db cid "sighting" pid).sightings =
        db.sightings.map (fun s0 =>
          if s0.id == pid && s0.cat_id == cid then
            { s0 with image_data := none, image_type := none }
          else s0) := rfl
    rw [h2, getElem?_map_self i s hs]
    by_cases hc : s.id = pid ∧ s.cat_id = cid
    · obtain ⟨ha, hb⟩ := hc
      simp [ha, hb]
    · have hb : (s.id == pid && s.cat_id == cid) = false := by
        rw [Bool.eq_false_iff]
        intro ht
        exact hc (by simpa using ht)
      simp [hb, hc]

/-- C7 witness: soft-deleting a concrete sighting photo nulls the image
fields and keeps date, location and notes. -/
theorem delete_photo_semantics_witness :
    (delete_cat_photo
        ⟨[], [⟨3, 9, "2024-01-01", some "yard", some "asleep", some "D", some "image/png"⟩], []⟩
        9 "sighting" 3).sightings[0]? =
      some ⟨3, 9, "2024-01-01", some "yard", some "asleep", none, none⟩ := by
  have h := (delete_photo_semantics
      ⟨[], [⟨3, 9, "2024-01-01", some "yard", some "asleep", some "D", some "image/png"⟩], []⟩
      9 3).2.2.1 0 ⟨3, 9, "2024-01-01", some "yard", some "asleep", some "D", some "image/png"⟩
      rfl
  exact h.trans (by decide)

/-- C8: `set_profile_photo` copies the chosen photo's image bytes and MIME
type onto the cat record (only the cat's image fields change; its other
fields, the other rows and the other tables are untouched — the payload is
duplicated, no reference to the source photo is stored); if the referenced
photo exists but has no truthy image payload, the whole state is left
unchanged. -/
theorem set_profile_photo_semantics (db : DB) (cid pid : Nat) :
    (∀ p, db.cat_photos.find? (fun q => q.id == pid && q.cat_id == cid) = some p →
      (p.image_data ≠ "" →
        ((set_profile_photo db cid "gallery" pid).sightings = db.sightings ∧
         (set_profile_photo db cid "gallery" pid).cat_photos = db.cat_photos) ∧
        (∀ (i : Nat) (c : Cat), db.cats[i]? = some c →
          (set_profile_photo db cid "gallery" pid).cats[i]? =
            some (if c.id = cid then
              { c with image_data := some p.image_data, image_type := some p.image_type }
            else c))) ∧
      (p.image_data = "" → set_profile_photo db cid "gallery" pid = db)) ∧
    (∀ s, db.sightings.find? (fun q => q.id == pid && q.cat_id == cid) = some s →
      (truthy s.image_data = true →
        ((set_profile_photo db cid "sighting" pid).sightings = db.sightings ∧
         (set_profile_photo db cid "sighting" pid).cat_photos = db.cat_photos) ∧
        (∀ (i : Nat) (c : Cat), db.cats[i]? = some c →
          (set_profile_photo db cid "sighting" pid).cats[i]? =
            some (if c.id = cid then
              { c with image_data := s.image_data, image_type := s.image_type }
            else c))) ∧
      (truthy s.image_data = false → set_profile_photo db cid "sighting" pid = db)) := by
  constructor
  · intro p hfind
    constructor
    · intro hne
      have ht : truthy (some p.image_data) = true := by simp [truthy, hne]
      have hmap : (set_profile_photo db cid "gallery" pid).cats =
          db.cats.map (fun c =>
            if c.id == cid then
              { c with image_data := some p.image_data, image_type := some p.image_type }
            else c) := by
        simp [set_profile_photo, hfind, ht]
      refine ⟨⟨?_, ?_⟩, ?_⟩
      · simp [set_profile_photo, hfind, ht]
      · simp [set_profile_photo, hfind, ht]
      · intro i c hc
        rw [hmap, getElem?_map_self i c hc]
        by_cases hcid : c.id = cid
        · simp [hcid]
        · have hb : (c.id == cid) = false := by
            rw [Bool.eq_false_iff]
            intro hcontra
            exact hcid (by simpa using hcontra)
          simp [hb, hcid]
    · intro hemp
      have ht : truthy (some p.image_data) = false := by simp [truthy, hemp]
      simp [set_profile_photo, hfind, ht]
  · intro s hfind
    constructor
    · intro ht
      have hmap : (set_profile_photo db cid "sighting" pid).cats =
          db.cats.map (fun c =>
            if c.id == cid then
              { c with image_data := s.image_data, image_type := s.image_type }
            else c) := by
        simp [set_profile_photo, hfind, ht]
      refine ⟨⟨?_, ?_⟩, ?_⟩
      · simp [set_profile_photo, hfind, ht]
      · simp [set_profile_photo, hfind, ht]
      · intro i c hc
        rw [hmap, getElem?_map_self i c hc]
        by_cases hcid : c.id = cid
        · simp [hcid]
        · have hb : (c.id == cid) = false := by
            rw [Bool.eq_false_iff]
            intro hcontra
            exact hcid (by simpa using hcontra)
          simp [hb, hcid]
    · intro ht
      simp [set_profile_photo, hfind, ht]

/-- C8 witness: a sighting photo with a NULL payload leaves the state
entirely unchanged. -/
theorem set_profile_photo_semantics_witness :
    set_profile_photo
        ⟨[⟨9, "Tom", none, none, none, none⟩],
         [⟨3, 9, "2024-01-01", none, none, none, none⟩], []⟩ 9 "sighting" 3 =
      ⟨[⟨9, "Tom", none, none, none, none⟩],
       [⟨3, 9, "2024-01-01", none, none, none, none⟩], []⟩ :=
  ((set_profile_photo_semantics
      ⟨[⟨9, "Tom", none, none, none, none⟩],
       [⟨3, 9, "2024-01-01", none, none, none, none⟩], []⟩ 9 3).2
    ⟨3, 9, "2024-01-01", none, none, none, none⟩ (by decide)).2 (by decide)

/-- C10: the per-photo operations match their target by photo id AND cat
id: when the photo with the given id does not belong to the given cat — or
the source tag is neither `'gallery'` nor `'sighting'` — neither handler
modifies any row of any table (the handlers only redirect). -/
theorem per_photo_ops_scoped (db : DB) (cid pid : Nat) (source : String) :
    (source = "gallery" → (∀ p ∈ db.cat_photos, ¬(p.id = pid ∧ p.cat_id = cid)) →
      delete_cat_photo db cid source pid = db ∧ set_profile_photo db cid source pid = db) ∧
    (source = "sighting" → (∀ s ∈ db.sightings, ¬(s.id = pid ∧ s.cat_id = cid)) →
      delete_cat_photo db cid source pid = db ∧ set_profile_photo db cid source pid = db) ∧
    (source ≠ "gallery" → source ≠ "sighting" →
      delete_cat_photo db cid source pid = db ∧ set_profile_photo db cid source pid = db) := by
  refine ⟨?_, ?_, ?_⟩
  · rintro rfl h
    have hf : db.cat_photos.filter (fun p => !(p.id == pid && p.cat_id == cid)) =
        db.cat_photos :=
      List.filter_eq_self.mpr (fun p hp => by
        have hb : (p.id == pid && p.cat_id == cid) = false := by
          rw [Bool.eq_false_iff]
          intro ht
          exact h p hp (by simpa using ht)
        simp [hb])
    have hn : db.cat_photos.find? (fun q => q.id == pid && q.cat_id == cid) = none :=
      List.find?_eq_none.mpr (fun q hq => by simpa using h q hq)
    constructor
    · have e1 : delete_cat_photo db cid "gallery" pid =
          { db with
            cat_photos := db.cat_photos.filter (fun p => !(p.id == pid && p.cat_id == cid)) } :=
        rfl
      rw [e1, hf]
    · simp [set_profile_photo, hn]
  · rintro rfl h
    have hm : db.sightings.map (fun s =>
        if s.id == pid && s.cat_id == cid then
          { s with image_data := none, image_type := none }
        else s) = db.sightings :=
      map_eq_self_of_mem (fun s hs => by
        have hb : (s.id == pid && s.cat_id == cid) = false := by
          rw [Bool.eq_false_iff]
          intro ht
          exact h s hs (by simpa using ht)
        simp [hb])
    have hn : db.sightings.find? (fun q => q.id == pid && q.cat_id == cid) = none :=
      List.find?_eq_none.mpr (fun q hq => by simpa using h q hq)
    constructor
    · have e2 : delete_cat_photo db cid "sighting" pid =
          { db with
            sightings := db.sightings.map (fun s =>
              if s.id == pid && s.cat_id == cid then
                { s with image_data := none, image_type := none }
              else s) } :=
        rfl
      rw [e2, hm]
    · simp [set_profile_photo, hn]
  · intro h1 h2
    have b1 : (source == "gallery") = false := by
      rw [Bool.eq_false_iff]
      intro ht
      exact h1 (by simpa using ht)
    have b2 : (source == "sighting") = false := by
      rw [Bool.eq_false_iff]
      intro ht
      exact h2 (by simpa using ht)
    constructor
    · simp [delete_cat_photo, b1, b2]
    · simp [set_profile_photo, b1, b2]

/-- C10 witness: deleting gallery photo 4, which belongs to cat 8, through
cat 9 changes nothing. -/
theorem per_photo_ops_scoped_witness :
    delete_cat_photo
        ⟨[⟨9, "Tom", none, none, none, none⟩], [],
         [⟨4, 8, "D", "image/png", none, none, none⟩]⟩ 9 "gallery" 4 =
      ⟨[⟨9, "Tom", none, none, none, none⟩], [],
       [⟨4, 8, "D", "image/png", none, none, none⟩]⟩ :=
  ((per_photo_ops_scoped
      ⟨[⟨9, "Tom", none, none, none, none⟩], [],
       [⟨4, 8, "D", "image/png", none, none, none⟩]⟩ 9 4 "gallery").1 rfl (by decide)).1

/-- C9: for every entry of the cats listing, `photo_count` equals the
number of gallery-photo rows for that cat plus the number of sighting rows
for that cat whose `image_data` is non-NULL; equivalently, it equals the
length of the aggregated photo list of `get_all_cat_photos`. -/
theorem cats_list_photo_count (db : DB) :
    ∀ e ∈ cats_list db,
      e.photo_count =
        db.cat_photos.countP (fun p => p.cat_id == e.cat.id) +
        db.sightings.countP (fun s => s.cat_id == e.cat.id && s.image_data.isSome) ∧
      e.photo_count = (get_all_cat_photos db e.cat.id).length := by
  intro e he
  rw [cats_list] at he
  rcases List.mem_map.mp he with ⟨c, _, rfl⟩
  constructor
  · simp [List.countP_eq_length_filter]
  · simp [get_all_cat_photos, List.length_insertionSort]

/-- C9 witness: a cat with one gallery photo, one sighting with an image
and one imageless sighting has `photo_count` 2. -/
theorem cats_list_photo_count_witness :
    ({ cat := ⟨1, "Tom", none, none, none, none⟩, sighting_count := 2, image_src := none,
        photo_count := 2 } : CatListEntry).photo_count = 2 := by
  have h := (cats_list_photo_count
      ⟨[⟨1, "Tom", none, none, none, none⟩],
       [⟨1, 1, "2024-01-01", none, none, some "D", some "image/png"⟩,
        ⟨2, 1, "2024-01-02", none, none, none, none⟩],
       [⟨1, 1, "G", "image/png", none, none, none⟩]⟩
      { cat := ⟨1, "Tom", none, none, none, none⟩, sighting_count := 2, image_src := none,
        photo_count := 2 } (by decide)).1
  exact h.trans (by decide)

end CatTracker
